import Mathlib

/-!
Verification of the mortgage calculation core of the `mortgage-calc`
repository (`src/lib/mortgage-calculator.ts` and the scenario store of
`LocalStorageService`).

Modelling conventions:
* JavaScript numbers are modelled as rationals (`ℚ`); every arithmetic
  operation in the calculator is a field operation, and the spec's data
  model declares all monetary and rate quantities as exact quantities.
  Division is the total division of `ℚ` (division by zero yields 0).
* The loan term is an integer number of years (spec data model:
  "term in years (integer, 1-50)"), modelled as `ℕ`.
* Optional fields (`pmiRate?`, `hoaFees?`, `closingCosts?`) are `Option ℚ`.
  JavaScript truthiness tests (`inputs.pmiRate ? … : …`) are modelled by a
  match on the option together with an explicit zero test, since the
  number `0` is falsy.
* JavaScript `Date` month arithmetic and ISO rendering depend on the
  runtime's timezone and on unspecified month-rollover behaviour (the
  spec flags this as an open question).  The schedule therefore abstracts
  the payment date as a function `dateOf : ℕ → String` mapping a payment
  index to the rendered `YYYY-MM-DD` string of the start date advanced by
  that many months; the point-in-time lookups receive the normalized
  target date string directly.
-/

/-- `MortgageInputs` from `mortgage-calculator.ts`. -/
structure MortgageInputs where
  loanAmount : ℚ
  interestRate : ℚ
  loanTermYears : ℕ
  propertyTaxAnnual : ℚ
  homeInsuranceAnnual : ℚ
  pmiRate : Option ℚ
  hoaFees : Option ℚ
  downPayment : ℚ
  closingCosts : Option ℚ
deriving DecidableEq, Repr

/-- `MortgageCalculation` from `mortgage-calculator.ts`. -/
structure MortgageCalculation where
  loanAmount : ℚ
  downPayment : ℚ
  purchasePrice : ℚ
  principalAndInterest : ℚ
  propertyTaxMonthly : ℚ
  homeInsuranceMonthly : ℚ
  pmiMonthly : ℚ
  hoaFeesMonthly : ℚ
  totalMonthlyPayment : ℚ
  totalInterest : ℚ
  totalPayments : ℚ
  totalPMI : ℚ
  interestRate : ℚ
  loanTermYears : ℕ
  monthlyRate : ℚ
deriving DecidableEq, Repr

/-- `AmortizationEntry` from `mortgage-calculator.ts`; `paymentDate` is the
rendered `YYYY-MM-DD` string. -/
structure AmortizationEntry where
  paymentNumber : ℕ
  paymentDate : String
  beginningBalance : ℚ
  monthlyPayment : ℚ
  principalPayment : ℚ
  interestPayment : ℚ
  endingBalance : ℚ
  cumulativeInterest : ℚ
  cumulativePrincipal : ℚ
deriving DecidableEq, Repr

namespace MortgageCalculator

/-- `MortgageCalculator.calculateMonthlyPayment`. -/
def calculateMonthlyPayment (principal annualRate : ℚ) (termYears : ℕ) : ℚ :=
  let monthlyRate : ℚ := annualRate / 100 / 12
  let numPayments : ℕ := termYears * 12
  if monthlyRate = 0 then
    principal / (numPayments : ℚ)
  else
    principal * (monthlyRate * (1 + monthlyRate) ^ numPayments) /
      ((1 + monthlyRate) ^ numPayments - 1)

/-- `MortgageCalculator.calculateTotalInterest`. -/
def calculateTotalInterest (principal monthlyPayment : ℚ) (termYears : ℕ) : ℚ :=
  let totalPayments := monthlyPayment * (termYears : ℚ) * 12
  totalPayments - principal

/-- `MortgageCalculator.calculatePMI`. -/
def calculatePMI (loanAmount pmiRate downPaymentPercent : ℚ) : ℚ :=
  if downPaymentPercent ≥ 20 then 0
  else loanAmount * pmiRate / 100 / 12

/-- `MortgageCalculator.calculateMortgage`.  The ternary
`inputs.pmiRate ? calculatePMI(…) : 0` tests JavaScript truthiness, so a
missing rate and a zero rate both take the `0` branch; likewise
`inputs.hoaFees || 0` yields `0` for a missing or zero fee. -/
def calculateMortgage (inputs : MortgageInputs) : MortgageCalculation :=
  let purchasePrice := inputs.loanAmount + inputs.downPayment
  let downPaymentPercent := inputs.downPayment / purchasePrice * 100
  let principalAndInterest :=
    calculateMonthlyPayment inputs.loanAmount inputs.interestRate inputs.loanTermYears
  let propertyTaxMonthly := inputs.propertyTaxAnnual / 12
  let homeInsuranceMonthly := inputs.homeInsuranceAnnual / 12
  let pmiMonthly :=
    match inputs.pmiRate with
    | some r => if r = 0 then 0 else calculatePMI inputs.loanAmount r downPaymentPercent
    | none => 0
  let hoaFeesMonthly :=
    match inputs.hoaFees with
    | some h => if h = 0 then 0 else h
    | none => 0
  let totalMonthlyPayment :=
    principalAndInterest + propertyTaxMonthly + homeInsuranceMonthly + pmiMonthly +
      hoaFeesMonthly
  let totalInterest :=
    calculateTotalInterest inputs.loanAmount principalAndInterest inputs.loanTermYears
  let totalPayments := totalMonthlyPayment * (inputs.loanTermYears : ℚ) * 12
  let totalPMI := pmiMonthly * (inputs.loanTermYears : ℚ) * 12
  { loanAmount := inputs.loanAmount
    downPayment := inputs.downPayment
    purchasePrice := purchasePrice
    principalAndInterest := principalAndInterest
    propertyTaxMonthly := propertyTaxMonthly
    homeInsuranceMonthly := homeInsuranceMonthly
    pmiMonthly := pmiMonthly
    hoaFeesMonthly := hoaFeesMonthly
    totalMonthlyPayment := totalMonthlyPayment
    totalInterest := totalInterest
    totalPayments := totalPayments
    totalPMI := totalPMI
    interestRate := inputs.interestRate
    loanTermYears := inputs.loanTermYears
    monthlyRate := inputs.interestRate / 100 / 12 }

/-- Body of the `for` loop of `generateAmortizationTable`: one recursive
step per remaining scheduled payment.  An entry is pushed, the balance is
advanced, and the loop breaks once the balance falls to `≤ 0.01`. -/
def amortAux (monthlyPayment monthlyRate : ℚ) (dateOf : ℕ → String)
    (i : ℕ) (balance cumulativeInterest cumulativePrincipal : ℚ) :
    ℕ → List AmortizationEntry
  | 0 => []
  | remaining + 1 =>
    let interestPayment := balance * monthlyRate
    let principalPayment := monthlyPayment - interestPayment
    let endingBalance := max 0 (balance - principalPayment)
    let entry : AmortizationEntry :=
      { paymentNumber := i
        paymentDate := dateOf i
        beginningBalance := balance
        monthlyPayment := monthlyPayment
        principalPayment := principalPayment
        interestPayment := interestPayment
        endingBalance := endingBalance
        cumulativeInterest := cumulativeInterest + interestPayment
        cumulativePrincipal := cumulativePrincipal + principalPayment }
    if endingBalance ≤ 1 / 100 then [entry]
    else
      entry ::
        amortAux monthlyPayment monthlyRate dateOf (i + 1) endingBalance
          (cumulativeInterest + interestPayment)
          (cumulativePrincipal + principalPayment) remaining

/-- `MortgageCalculator.generateAmortizationTable`.  `dateOf i` stands for
`paymentDate.toISOString().split("T")[0]` of the start date advanced by
`i` calendar months. -/
def generateAmortizationTable (inputs : MortgageInputs) (dateOf : ℕ → String) :
    List AmortizationEntry :=
  let calculation := calculateMortgage inputs
  let monthlyPayment := calculation.principalAndInterest
  let monthlyRate := calculation.monthlyRate
  let numPayments := inputs.loanTermYears * 12
  amortAux monthlyPayment monthlyRate dateOf 1 inputs.loanAmount 0 0 numPayments

/-- `MortgageCalculator.calculatePrincipalPaidByDate`; `targetDateStr`
stands for `targetDate.toISOString().split("T")[0]`. -/
def calculatePrincipalPaidByDate (inputs : MortgageInputs) (dateOf : ℕ → String)
    (targetDateStr : String) : ℚ :=
  let amortizationTable := generateAmortizationTable inputs dateOf
  match amortizationTable.find? (fun entry => entry.paymentDate == targetDateStr) with
  | some entry => entry.cumulativePrincipal
  | none => 0

/-- `MortgageCalculator.calculateRemainingBalance`. -/
def calculateRemainingBalance (inputs : MortgageInputs) (dateOf : ℕ → String)
    (targetDateStr : String) : ℚ :=
  let amortizationTable := generateAmortizationTable inputs dateOf
  match amortizationTable.find? (fun entry => entry.paymentDate == targetDateStr) with
  | some entry => entry.endingBalance
  | none => inputs.loanAmount

/-- `MortgageCalculator.calculateInterestPaidByDate`. -/
def calculateInterestPaidByDate (inputs : MortgageInputs) (dateOf : ℕ → String)
    (targetDateStr : String) : ℚ :=
  let amortizationTable := generateAmortizationTable inputs dateOf
  match amortizationTable.find? (fun entry => entry.paymentDate == targetDateStr) with
  | some entry => entry.cumulativeInterest
  | none => 0

end MortgageCalculator

namespace MortgageUtils

/-- `MortgageUtils.validateInputs`.  Each `if (cond) errors.push(msg)` block
appends its message; `inputs.pmiRate && (…)`, `inputs.hoaFees && (…)` and
`inputs.closingCosts && (…)` test JavaScript truthiness, so a missing or
zero value skips the check. -/
def validateInputs (inputs : MortgageInputs) : List String :=
  (if inputs.interestRate < 0 ∨ inputs.interestRate > 50 then
    ["Interest rate must be between 0% and 50%"] else []) ++
  (if inputs.loanTermYears ≤ 0 ∨ inputs.loanTermYears > 50 then
    ["Loan term must be between 1 and 50 years"] else []) ++
  (if inputs.downPayment < 0 then
    ["Down payment cannot be negative"] else []) ++
  (if inputs.downPayment > inputs.loanAmount + inputs.downPayment then
    ["Down payment cannot be greater than purchase price"] else []) ++
  (if inputs.propertyTaxAnnual < 0 then
    ["Property tax cannot be negative"] else []) ++
  (if inputs.homeInsuranceAnnual < 0 then
    ["Home insurance cannot be negative"] else []) ++
  (match inputs.pmiRate with
    | some r => if r ≠ 0 ∧ (r < 0 ∨ r > 10) then
        ["PMI rate must be between 0% and 10%"] else []
    | none => []) ++
  (match inputs.hoaFees with
    | some h => if h ≠ 0 ∧ h < 0 then
        ["HOA fees cannot be negative"] else []
    | none => []) ++
  (match inputs.closingCosts with
    | some c => if c ≠ 0 ∧ c < 0 then
        ["Closing costs cannot be negative"] else []
    | none => [])

/-- The validation output as the claim words it: one error per violated
check, in the listed order, with the range checks phrased as closed
intervals (`[0, 50]`, `[1, 50]`, `[0, 10]`) and the optional checks firing
exactly when the field is present and violates its range. -/
def claimValidationErrors (inputs : MortgageInputs) : List String :=
  (if 0 ≤ inputs.interestRate ∧ inputs.interestRate ≤ 50 then []
    else ["Interest rate must be between 0% and 50%"]) ++
  (if 1 ≤ inputs.loanTermYears ∧ inputs.loanTermYears ≤ 50 then []
    else ["Loan term must be between 1 and 50 years"]) ++
  (if 0 ≤ inputs.downPayment then []
    else ["Down payment cannot be negative"]) ++
  (if inputs.downPayment ≤ inputs.loanAmount + inputs.downPayment then []
    else ["Down payment cannot be greater than purchase price"]) ++
  (if 0 ≤ inputs.propertyTaxAnnual then []
    else ["Property tax cannot be negative"]) ++
  (if 0 ≤ inputs.homeInsuranceAnnual then []
    else ["Home insurance cannot be negative"]) ++
  (match inputs.pmiRate with
    | some r => if 0 ≤ r ∧ r ≤ 10 then []
        else ["PMI rate must be between 0% and 10%"]
    | none => []) ++
  (match inputs.hoaFees with
    | some h => if 0 ≤ h then []
        else ["HOA fees cannot be negative"]
    | none => []) ++
  (match inputs.closingCosts with
    | some c => if 0 ≤ c then []
        else ["Closing costs cannot be negative"]
    | none => [])

end MortgageUtils

/-- `SavedScenario` from the local-storage service. -/
structure SavedScenario where
  id : String
  name : String
  inputs : MortgageInputs
  calculation : MortgageCalculation
  amortization : List AmortizationEntry
  createdAt : String
  updatedAt : String
deriving DecidableEq, Repr

namespace LocalStorageService

/-- `LocalStorageService.saveScenario`.  The stored scenario list is passed
and returned explicitly (it lives in `localStorage` under one key); the
clock is passed as the millisecond timestamp `nowMs` used for the generated
id `scenario_<Date.now()>` and the ISO string `nowIso` used for both
timestamps.  Returns the new scenario together with the updated store. -/
def saveScenario (scenarios : List SavedScenario) (nowMs : ℕ) (nowIso : String)
    (name : String) (inputs : MortgageInputs) (calculation : MortgageCalculation)
    (amortization : List AmortizationEntry) :
    SavedScenario × List SavedScenario :=
  let scenario : SavedScenario :=
    { id := "scenario_" ++ toString nowMs
      name := name
      inputs := inputs
      calculation := calculation
      amortization := amortization
      createdAt := nowIso
      updatedAt := nowIso }
  (scenario, scenarios ++ [scenario])

/-- `LocalStorageService.getScenario`: first scenario with the given id, or
`null`. -/
def getScenario (scenarios : List SavedScenario) (id : String) :
    Option SavedScenario :=
  scenarios.find? (fun s => s.id == id)

/-- `LocalStorageService.updateScenario`.  Finds the index of the scenario
with the given id; when present, replaces `name`, `inputs`, `calculation`
and `amortization`, sets `updatedAt` to the current ISO time, keeps the
other fields, and stores the list back.  Returns the updated scenario (or
`null`) with the updated store. -/
def updateScenario (scenarios : List SavedScenario) (nowIso : String)
    (id : String) (name : String) (inputs : MortgageInputs)
    (calculation : MortgageCalculation) (amortization : List AmortizationEntry) :
    Option SavedScenario × List SavedScenario :=
  match h : scenarios.findIdx? (fun s => s.id == id) with
  | none => (none, scenarios)
  | some index =>
    let old := scenarios.get ⟨index, (List.findIdx?_eq_some_iff_findIdx_eq.mp h).1⟩
    let updatedScenario : SavedScenario :=
      { old with
        name := name
        inputs := inputs
        calculation := calculation
        amortization := amortization
        updatedAt := nowIso }
    (some updatedScenario, scenarios.set index updatedScenario)

end LocalStorageService

/-- A concrete cash-purchase input set used for witnesses. -/
def sampleInputs : MortgageInputs := ⟨0, 0, 1, 0, 0, none, none, 0, none⟩

/-- A concrete calculation snapshot used for scenario witnesses. -/
def sampleCalculation : MortgageCalculation :=
  ⟨0, 0, 0, 0, 0, 0, 0, 0, 0, 0, 0, 0, 0, 1, 0⟩

/-- A concrete stored scenario whose id collides with the id generated at
millisecond 0. -/
def sampleScenario : SavedScenario :=
  ⟨"scenario_0", "n", sampleInputs, sampleCalculation, [], "t0", "t0"⟩

open MortgageCalculator MortgageUtils in
lemma calculateMonthlyPayment_zero_principal (annualRate : ℚ) (termYears : ℕ) :
    calculateMonthlyPayment 0 annualRate termYears = 0 := by
  unfold calculateMonthlyPayment
  dsimp only
  split <;> simp

/-- C1: for every principal `P`, annual rate and term in years,
`calculateMonthlyPayment` returns `P / n` when the monthly rate
`r = annualRate/100/12` equals 0, and otherwise
`P · r · (1+r)^n / ((1+r)^n − 1)`, where `n = termYears × 12`. -/
theorem calculateMonthlyPayment_formula (P annualRate : ℚ) (termYears : ℕ) :
    MortgageCalculator.calculateMonthlyPayment P annualRate termYears =
      if annualRate / 100 / 12 = 0 then P / ((termYears * 12 : ℕ) : ℚ)
      else
        P * (annualRate / 100 / 12) * (1 + annualRate / 100 / 12) ^ (termYears * 12) /
          ((1 + annualRate / 100 / 12) ^ (termYears * 12) - 1) := by
  unfold MortgageCalculator.calculateMonthlyPayment
  dsimp only
  split_ifs with h
  · rfl
  · ring

/-- C5: `totalInterest` equals
(monthly principal-and-interest payment × loanTermYears × 12) − loanAmount,
computed from the nominal schedule total. -/
theorem calculateMortgage_totalInterest (inputs : MortgageInputs) :
    (MortgageCalculator.calculateMortgage inputs).totalInterest =
      (MortgageCalculator.calculateMortgage inputs).principalAndInterest *
        ((inputs.loanTermYears : ℚ) * 12) - inputs.loanAmount := by
  simp only [MortgageCalculator.calculateMortgage, MortgageCalculator.calculateTotalInterest]
  ring

/-- C7: with a zero loan amount (and a term of at least one year) the
calculation yields zero principal-and-interest, zero total interest and
zero PMI; every division involved is well defined over `ℚ`. -/
theorem calculateMortgage_zero_principal (inputs : MortgageInputs)
    (h0 : inputs.loanAmount = 0) (_h1 : 1 ≤ inputs.loanTermYears) :
    (MortgageCalculator.calculateMortgage inputs).principalAndInterest = 0 ∧
    (MortgageCalculator.calculateMortgage inputs).totalInterest = 0 ∧
    (MortgageCalculator.calculateMortgage inputs).pmiMonthly = 0 := by
  refine ⟨?_, ?_, ?_⟩
  · simp [MortgageCalculator.calculateMortgage, h0,
      calculateMonthlyPayment_zero_principal]
  · simp [MortgageCalculator.calculateMortgage, MortgageCalculator.calculateTotalInterest,
      h0, calculateMonthlyPayment_zero_principal]
  · simp only [MortgageCalculator.calculateMortgage]
    cases hr : inputs.pmiRate with
    | none => simp
    | some r =>
      by_cases hz : r = 0
      · simp [hz]
      · simp [hz, MortgageCalculator.calculatePMI, h0]

/-- Closed witness for `calculateMortgage_zero_principal`. -/
theorem calculateMortgage_zero_principal_witness :
    (MortgageCalculator.calculateMortgage
        ⟨0, 5, 30, 3600, 1200, some (1/2), some 100, 60000, some 5000⟩).principalAndInterest
        = 0 ∧
    (MortgageCalculator.calculateMortgage
        ⟨0, 5, 30, 3600, 1200, some (1/2), some 100, 60000, some 5000⟩).totalInterest = 0 ∧
    (MortgageCalculator.calculateMortgage
        ⟨0, 5, 30, 3600, 1200, some (1/2), some 100, 60000, some 5000⟩).pmiMonthly = 0 :=
  calculateMortgage_zero_principal
    ⟨0, 5, 30, 3600, 1200, some (1/2), some 100, 60000, some 5000⟩ rfl (by decide)

/-- C4: `pmiMonthly` is 0 whenever the down-payment fraction of the
purchase price (`loanAmount + downPayment`) is at least 20%, regardless of
the supplied PMI rate; and whenever that fraction is below 20% and a PMI
rate is supplied, `pmiMonthly = loanAmount × pmiRate / 100 / 12`. -/
theorem calculateMortgage_pmiMonthly (inputs : MortgageInputs) :
    (inputs.downPayment / (inputs.loanAmount + inputs.downPayment) ≥ 1/5 →
      (MortgageCalculator.calculateMortgage inputs).pmiMonthly = 0) ∧
    (∀ r, inputs.pmiRate = some r →
      inputs.downPayment / (inputs.loanAmount + inputs.downPayment) < 1/5 →
      (MortgageCalculator.calculateMortgage inputs).pmiMonthly =
        inputs.loanAmount * r / 100 / 12) := by
  constructor
  · intro hge
    simp only [MortgageCalculator.calculateMortgage]
    cases hr : inputs.pmiRate with
    | none => simp
    | some r =>
      by_cases hz : r = 0
      · simp [hz]
      · simp only [hz, if_false, MortgageCalculator.calculatePMI]
        rw [if_pos (by linarith)]
  · intro r hr hlt
    simp only [MortgageCalculator.calculateMortgage, hr]
    by_cases hz : r = 0
    · simp [hz]
    · simp only [hz, if_false, MortgageCalculator.calculatePMI]
      rw [if_neg (by intro h; linarith)]

/-- Closed witness for `calculateMortgage_pmiMonthly`: PMI vanishes with a
25% down payment and equals the formula with a 10% down payment. -/
theorem calculateMortgage_pmiMonthly_witness :
    (MortgageCalculator.calculateMortgage
        ⟨300000, 6, 30, 0, 0, some 1, none, 100000, none⟩).pmiMonthly = 0 ∧
    (MortgageCalculator.calculateMortgage
        ⟨360000, 6, 30, 0, 0, some 1, none, 40000, none⟩).pmiMonthly =
      360000 * 1 / 100 / 12 :=
  ⟨(calculateMortgage_pmiMonthly ⟨300000, 6, 30, 0, 0, some 1, none, 100000, none⟩).1
      (by norm_num),
   (calculateMortgage_pmiMonthly ⟨360000, 6, 30, 0, 0, some 1, none, 40000, none⟩).2
      1 rfl (by norm_num)⟩

namespace MortgageCalculator

lemma amortAux_length (mp r : ℚ) (d : ℕ → String) :
    ∀ (f i : ℕ) (b ci cp : ℚ), (amortAux mp r d i b ci cp f).length ≤ f := by
  intro f
  induction f with
  | zero => intro i b ci cp; simp [amortAux]
  | succ f ih =>
    intro i b ci cp
    simp only [amortAux]
    split
    · simp
    · simpa using ih (i + 1) _ _ _

lemma amortAux_ne_nil (mp r : ℚ) (d : ℕ → String) (f i : ℕ) (b ci cp : ℚ)
    (hf : 0 < f) : amortAux mp r d i b ci cp f ≠ [] := by
  cases f with
  | zero => omega
  | succ f =>
    simp only [amortAux]
    split <;> simp

lemma amortAux_head (mp r : ℚ) (d : ℕ → String) (f i : ℕ) (b ci cp : ℚ)
    (e : AmortizationEntry) (h : (amortAux mp r d i b ci cp f).head? = some e) :
    e.beginningBalance = b := by
  cases f with
  | zero => simp [amortAux] at h
  | succ f =>
    simp only [amortAux] at h
    split at h <;> (simp only [List.head?_cons, Option.some.injEq] at h; rw [← h])

lemma amortAux_mem (mp r : ℚ) (d : ℕ → String) :
    ∀ (f i : ℕ) (b ci cp : ℚ) (e : AmortizationEntry),
      e ∈ amortAux mp r d i b ci cp f →
      e.monthlyPayment = mp ∧
      e.interestPayment = e.beginningBalance * r ∧
      e.principalPayment = mp - e.interestPayment ∧
      e.endingBalance = max 0 (e.beginningBalance - e.principalPayment) := by
  intro f
  induction f with
  | zero => intro i b ci cp e he; simp [amortAux] at he
  | succ f ih =>
    intro i b ci cp e he
    simp only [amortAux] at he
    split at he
    · simp only [List.mem_singleton] at he
      subst he
      exact ⟨rfl, rfl, rfl, rfl⟩
    · rcases List.mem_cons.mp he with he | he
      · subst he
        exact ⟨rfl, rfl, rfl, rfl⟩
      · exact ih _ _ _ _ _ he

lemma amortAux_chain (mp r : ℚ) (d : ℕ → String) :
    ∀ (f i : ℕ) (b ci cp : ℚ),
      List.Chain' (fun a a' => a.endingBalance = a'.beginningBalance)
        (amortAux mp r d i b ci cp f) := by
  intro f
  induction f with
  | zero => intro i b ci cp; simp [amortAux]
  | succ f ih =>
    intro i b ci cp
    simp only [amortAux]
    split
    · simp
    · refine List.chain'_cons'.mpr ⟨?_, ih _ _ _ _⟩
      intro y hy
      exact (amortAux_head mp r d f _ _ _ _ y hy).symm

lemma amortAux_getLast (mp r : ℚ) (d : ℕ → String) :
    ∀ (f i : ℕ) (b ci cp : ℚ) (e : AmortizationEntry),
      (amortAux mp r d i b ci cp f).length < f →
      (amortAux mp r d i b ci cp f).getLast? = some e →
      e.endingBalance ≤ 1 / 100 := by
  intro f
  induction f with
  | zero => intro i b ci cp e hlen _; simp [amortAux] at hlen
  | succ f ih =>
    intro i b ci cp e hlen hlast
    simp only [amortAux] at hlen hlast
    split at hlen
    next hend =>
      rw [if_pos hend] at hlast
      simp only [List.getLast?_singleton, Option.some.injEq] at hlast
      subst hlast
      exact hend
    next hend =>
      rw [if_neg hend] at hlast
      simp only [List.length_cons, Nat.add_lt_add_iff_right] at hlen
      have hne : amortAux mp r d (i + 1) (0 ⊔ (b - (mp - b * r))) (ci + b * r)
          (cp + (mp - b * r)) f ≠ [] :=
        amortAux_ne_nil mp r d f (i + 1) _ _ _ (by omega)
      rcases List.exists_cons_of_ne_nil hne with ⟨x, xs, hx⟩
      rw [hx, List.getLast?_cons_cons] at hlast
      refine ih (i + 1) (0 ⊔ (b - (mp - b * r))) (ci + b * r) (cp + (mp - b * r)) e
        (by omega) ?_
      rw [hx]
      exact hlast

end MortgageCalculator

lemma generateAmortizationTable_sample_eval :
    MortgageCalculator.generateAmortizationTable ⟨0, 0, 1, 0, 0, none, none, 0, none⟩
      (fun _ => "") = [⟨1, "", 0, 0, 0, 0, 0, 0, 0⟩] := by
  norm_num [MortgageCalculator.generateAmortizationTable,
    MortgageCalculator.calculateMortgage, MortgageCalculator.calculateMonthlyPayment,
    MortgageCalculator.amortAux]

/-- C2: in every generated amortization table the first entry begins at the
loan amount; every entry satisfies `interestPayment = beginningBalance ×
monthlyRate`, `principalPayment = monthlyPayment − interestPayment` (hence
`principalPayment + interestPayment = monthlyPayment`) and
`endingBalance = max 0 (beginningBalance − principalPayment)`; and each
entry's ending balance is the next entry's beginning balance. -/
theorem generateAmortizationTable_invariants (inputs : MortgageInputs)
    (dateOf : ℕ → String) :
    (∀ e, (MortgageCalculator.generateAmortizationTable inputs dateOf).head? = some e →
        e.beginningBalance = inputs.loanAmount) ∧
    (∀ e ∈ MortgageCalculator.generateAmortizationTable inputs dateOf,
        e.monthlyPayment = (MortgageCalculator.calculateMortgage inputs).principalAndInterest ∧
        e.interestPayment =
          e.beginningBalance * (MortgageCalculator.calculateMortgage inputs).monthlyRate ∧
        e.principalPayment = e.monthlyPayment - e.interestPayment ∧
        e.principalPayment + e.interestPayment = e.monthlyPayment ∧
        e.endingBalance = max 0 (e.beginningBalance - e.principalPayment)) ∧
    List.Chain' (fun a a' => a.endingBalance = a'.beginningBalance)
      (MortgageCalculator.generateAmortizationTable inputs dateOf) := by
  refine ⟨?_, ?_, ?_⟩
  · intro e he
    exact MortgageCalculator.amortAux_head _ _ dateOf _ _ _ _ _ e he
  · intro e he
    obtain ⟨h1, h2, h3, h4⟩ := MortgageCalculator.amortAux_mem _ _ dateOf _ _ _ _ _ e he
    refine ⟨h1, h2, by rw [h3, h1], by rw [h3, h1]; ring, h4⟩
  · exact MortgageCalculator.amortAux_chain _ _ dateOf _ _ _ _ _

/-- Closed witness for `generateAmortizationTable_invariants`, at a
zero-rate cash purchase whose table is one all-zero row. -/
theorem generateAmortizationTable_invariants_witness :
    ((⟨1, "", 0, 0, 0, 0, 0, 0, 0⟩ : AmortizationEntry).beginningBalance =
        (⟨0, 0, 1, 0, 0, none, none, 0, none⟩ : MortgageInputs).loanAmount) ∧
    ((⟨1, "", 0, 0, 0, 0, 0, 0, 0⟩ : AmortizationEntry).monthlyPayment =
        (MortgageCalculator.calculateMortgage
          ⟨0, 0, 1, 0, 0, none, none, 0, none⟩).principalAndInterest) ∧
    List.Chain' (fun a a' => a.endingBalance = a'.beginningBalance)
      (MortgageCalculator.generateAmortizationTable
        ⟨0, 0, 1, 0, 0, none, none, 0, none⟩ (fun _ => "")) :=
  ⟨(generateAmortizationTable_invariants ⟨0, 0, 1, 0, 0, none, none, 0, none⟩
      (fun _ => "")).1 ⟨1, "", 0, 0, 0, 0, 0, 0, 0⟩
        (by rw [generateAmortizationTable_sample_eval]; rfl),
   ((generateAmortizationTable_invariants ⟨0, 0, 1, 0, 0, none, none, 0, none⟩
      (fun _ => "")).2.1 ⟨1, "", 0, 0, 0, 0, 0, 0, 0⟩
        (by simp [generateAmortizationTable_sample_eval])).1,
   (generateAmortizationTable_invariants ⟨0, 0, 1, 0, 0, none, none, 0, none⟩
      (fun _ => "")).2.2⟩

/-- C3: the amortization table never exceeds `loanTermYears × 12` entries,
and it is strictly shorter only when the final entry's ending balance has
fallen to at most `0.01`. -/
theorem generateAmortizationTable_length_spec (inputs : MortgageInputs)
    (dateOf : ℕ → String) :
    (MortgageCalculator.generateAmortizationTable inputs dateOf).length ≤
      inputs.loanTermYears * 12 ∧
    ((MortgageCalculator.generateAmortizationTable inputs dateOf).length <
        inputs.loanTermYears * 12 →
      ∀ e, (MortgageCalculator.generateAmortizationTable inputs dateOf).getLast? = some e →
        e.endingBalance ≤ 1 / 100) := by
  constructor
  · exact MortgageCalculator.amortAux_length _ _ dateOf _ _ _ _ _
  · intro hlen e hlast
    exact MortgageCalculator.amortAux_getLast _ _ dateOf _ _ _ _ _ e hlen hlast

/-- Closed witness for `generateAmortizationTable_length_spec`: a cash
purchase pays off immediately, so its table stops after one of twelve
scheduled rows with a zero ending balance. -/
theorem generateAmortizationTable_length_spec_witness :
    (MortgageCalculator.generateAmortizationTable
        ⟨0, 0, 1, 0, 0, none, none, 0, none⟩ (fun _ => "")).length ≤ 1 * 12 ∧
    (⟨1, "", 0, 0, 0, 0, 0, 0, 0⟩ : AmortizationEntry).endingBalance ≤ 1 / 100 :=
  ⟨(generateAmortizationTable_length_spec ⟨0, 0, 1, 0, 0, none, none, 0, none⟩
      (fun _ => "")).1,
   (generateAmortizationTable_length_spec ⟨0, 0, 1, 0, 0, none, none, 0, none⟩
      (fun _ => "")).2 (by simp [generateAmortizationTable_sample_eval])
        ⟨1, "", 0, 0, 0, 0, 0, 0, 0⟩ (by simp [generateAmortizationTable_sample_eval])⟩

/-- C10: a zero loan amount with a term of at least one year yields a table
of exactly one entry, all of whose monetary fields are zero and whose
payment number is 1. -/
theorem generateAmortizationTable_zero_principal (inputs : MortgageInputs)
    (dateOf : ℕ → String) (h0 : inputs.loanAmount = 0)
    (h1 : 1 ≤ inputs.loanTermYears) :
    MortgageCalculator.generateAmortizationTable inputs dateOf =
      [{ paymentNumber := 1, paymentDate := dateOf 1, beginningBalance := 0,
         monthlyPayment := 0, principalPayment := 0, interestPayment := 0,
         endingBalance := 0, cumulativeInterest := 0, cumulativePrincipal := 0 }] := by
  have hmp : (MortgageCalculator.calculateMortgage inputs).principalAndInterest = 0 := by
    simp [MortgageCalculator.calculateMortgage, h0, calculateMonthlyPayment_zero_principal]
  obtain ⟨k, hk⟩ : ∃ k, inputs.loanTermYears * 12 = k + 1 :=
    ⟨inputs.loanTermYears * 12 - 1, by omega⟩
  unfold MortgageCalculator.generateAmortizationTable
  dsimp only
  rw [hk, hmp, h0]
  simp [MortgageCalculator.amortAux]

/-- Closed witness for `generateAmortizationTable_zero_principal`. -/
theorem generateAmortizationTable_zero_principal_witness :
    MortgageCalculator.generateAmortizationTable
        ⟨0, 5, 30, 3600, 1200, some (1/2), some 100, 60000, some 5000⟩ (fun _ => "x") =
      [{ paymentNumber := 1, paymentDate := "x", beginningBalance := 0,
         monthlyPayment := 0, principalPayment := 0, interestPayment := 0,
         endingBalance := 0, cumulativeInterest := 0, cumulativePrincipal := 0 }] :=
  generateAmortizationTable_zero_principal
    ⟨0, 5, 30, 3600, 1200, some (1/2), some 100, 60000, some 5000⟩ (fun _ => "x")
    rfl (by decide)

/-- C8: the three point-in-time lookups return the first table entry whose
payment-date string equals the normalized target date — its cumulative
principal, cumulative interest and ending balance respectively — and fall
back to `0`, `0` and the loan amount when no entry matches. -/
theorem lookupsByDate_spec (inputs : MortgageInputs) (dateOf : ℕ → String)
    (targetDateStr : String) :
    (∀ e, (MortgageCalculator.generateAmortizationTable inputs dateOf).find?
        (fun en => en.paymentDate == targetDateStr) = some e →
      MortgageCalculator.calculatePrincipalPaidByDate inputs dateOf targetDateStr =
          e.cumulativePrincipal ∧
      MortgageCalculator.calculateInterestPaidByDate inputs dateOf targetDateStr =
          e.cumulativeInterest ∧
      MortgageCalculator.calculateRemainingBalance inputs dateOf targetDateStr =
          e.endingBalance) ∧
    ((MortgageCalculator.generateAmortizationTable inputs dateOf).find?
        (fun en => en.paymentDate == targetDateStr) = none →
      MortgageCalculator.calculatePrincipalPaidByDate inputs dateOf targetDateStr = 0 ∧
      MortgageCalculator.calculateInterestPaidByDate inputs dateOf targetDateStr = 0 ∧
      MortgageCalculator.calculateRemainingBalance inputs dateOf targetDateStr =
          inputs.loanAmount) := by
  constructor
  · intro e he
    refine ⟨?_, ?_, ?_⟩ <;>
      simp [MortgageCalculator.calculatePrincipalPaidByDate,
        MortgageCalculator.calculateInterestPaidByDate,
        MortgageCalculator.calculateRemainingBalance, he]
  · intro hn
    refine ⟨?_, ?_, ?_⟩ <;>
      simp [MortgageCalculator.calculatePrincipalPaidByDate,
        MortgageCalculator.calculateInterestPaidByDate,
        MortgageCalculator.calculateRemainingBalance, hn]

/-- Closed witness for `lookupsByDate_spec`: on a one-row table, the
matching date returns the row's cumulative principal and the non-matching
date falls back to the loan amount. -/
theorem lookupsByDate_spec_witness :
    MortgageCalculator.calculatePrincipalPaidByDate
        ⟨0, 0, 1, 0, 0, none, none, 0, none⟩ (fun _ => "") "" =
      (⟨1, "", 0, 0, 0, 0, 0, 0, 0⟩ : AmortizationEntry).cumulativePrincipal ∧
    MortgageCalculator.calculateRemainingBalance
        ⟨0, 0, 1, 0, 0, none, none, 0, none⟩ (fun _ => "") "z" =
      (⟨0, 0, 1, 0, 0, none, none, 0, none⟩ : MortgageInputs).loanAmount :=
  ⟨((lookupsByDate_spec ⟨0, 0, 1, 0, 0, none, none, 0, none⟩ (fun _ => "") "").1
      ⟨1, "", 0, 0, 0, 0, 0, 0, 0⟩
      (by simp [generateAmortizationTable_sample_eval])).1,
   ((lookupsByDate_spec ⟨0, 0, 1, 0, 0, none, none, 0, none⟩ (fun _ => "") "z").2
      (by simp [generateAmortizationTable_sample_eval])).2.2⟩

lemma ite_list_congr {p q : Prop} [Decidable p] [Decidable q] (h : p ↔ ¬q)
    (m : List String) : (if p then m else []) = (if q then [] else m) := by
  by_cases hq : q
  · rw [if_neg (fun hp => (h.mp hp) hq), if_pos hq]
  · rw [if_pos (h.mpr hq), if_neg hq]

/-- C6: `validateInputs` produces exactly one error string per violated
check, in the listed order, and nothing else — equivalently, it returns the
list described by the claim, whose range checks are the closed intervals
`[0, 50]` for the interest rate, `[1, 50]` for the loan term and, when a
PMI rate is present, `[0, 10]` for it; in particular the result is empty
exactly when every check passes. -/
theorem validateInputs_spec (inputs : MortgageInputs) :
    MortgageUtils.validateInputs inputs = MortgageUtils.claimValidationErrors inputs := by
  obtain ⟨la, ir, lt, pt, hi, pr, hf, dp, cc⟩ := inputs
  unfold MortgageUtils.validateInputs MortgageUtils.claimValidationErrors
  cases pr <;> cases hf <;> cases cc <;>
    (dsimp only; repeat' apply congrArg₂ (· ++ ·)) <;>
    first
      | rfl
      | (refine ite_list_congr ?_ _; omega)
      | (refine ite_list_congr ?_ _; simp [not_and_or, not_le, imp_iff_not_or]; done)
      | (refine ite_list_congr ?_ _
         constructor
         · rintro ⟨hne, hl | hl⟩ hq <;> rcases hq with ⟨hq0, hq1⟩ <;> linarith
         · intro hq
           rcases not_and_or.mp hq with hq' | hq'
           · have hlt := lt_of_not_ge hq'
             exact ⟨ne_of_lt hlt, Or.inl hlt⟩
           · have hgt := lt_of_not_ge hq'
             exact ⟨(show (0:ℚ) < _ by linarith).ne', Or.inr hgt⟩)
      | (refine ite_list_congr ?_ _
         constructor
         · rintro ⟨_, hlt⟩; exact not_le.mpr hlt
         · intro hn
           have hlt := lt_of_not_ge hn
           exact ⟨ne_of_lt hlt, hlt⟩)

/-- C9 counterexample: when the store already holds a scenario whose id
equals the id generated for the save (ids derive from the millisecond
clock), `getScenario` returns the earlier scenario, not the saved one. -/
theorem scenario_store_roundtrip_counterexample :
    LocalStorageService.getScenario
        (LocalStorageService.saveScenario [sampleScenario] 0 "t1" "other" sampleInputs
          sampleCalculation []).2
        (LocalStorageService.saveScenario [sampleScenario] 0 "t1" "other" sampleInputs
          sampleCalculation []).1.id ≠
      some (LocalStorageService.saveScenario [sampleScenario] 0 "t1" "other" sampleInputs
        sampleCalculation []).1 := by
  decide

/-- C9 (amended): saving and then loading by the returned id round-trips
provided no already-stored scenario carries the generated id; and
`updateScenario` on an existing id replaces `name`, `inputs`,
`calculation` and `amortization`, sets `updatedAt`, and preserves `id` and
`createdAt`. -/
theorem scenario_store_roundtrip
    (scenarios : List SavedScenario) (nowMs : ℕ) (nowIso name : String)
    (inputs : MortgageInputs) (calculation : MortgageCalculation)
    (amortization : List AmortizationEntry)
    (hfresh : ∀ s ∈ scenarios, s.id ≠ "scenario_" ++ toString nowMs)
    (scenarios2 : List SavedScenario) (nowIso2 id2 name2 : String)
    (inputs2 : MortgageInputs) (calculation2 : MortgageCalculation)
    (amortization2 : List AmortizationEntry) :
    LocalStorageService.getScenario
        (LocalStorageService.saveScenario scenarios nowMs nowIso name inputs calculation
          amortization).2
        (LocalStorageService.saveScenario scenarios nowMs nowIso name inputs calculation
          amortization).1.id =
      some (LocalStorageService.saveScenario scenarios nowMs nowIso name inputs calculation
        amortization).1 ∧
    (∀ index old,
      scenarios2.findIdx? (fun s => s.id == id2) = some index →
      scenarios2[index]? = some old →
      (LocalStorageService.updateScenario scenarios2 nowIso2 id2 name2 inputs2 calculation2
        amortization2).1 =
        some { id := old.id, name := name2, inputs := inputs2,
               calculation := calculation2, amortization := amortization2,
               createdAt := old.createdAt, updatedAt := nowIso2 }) := by
  constructor
  · unfold LocalStorageService.saveScenario LocalStorageService.getScenario
    dsimp only
    induction scenarios with
    | nil => simp
    | cons s ss ih =>
      rw [List.cons_append, List.find?_cons_of_neg]
      · exact ih (fun x hx => hfresh x (List.mem_cons_of_mem s hx))
      · simp [hfresh s (List.mem_cons_self s ss)]
  · intro index old hidx hget
    unfold LocalStorageService.updateScenario
    split
    next heq => rw [heq] at hidx; exact absurd hidx (by simp)
    next i heq =>
      rw [heq, Option.some.injEq] at hidx
      subst hidx
      have hlt : i < scenarios2.length :=
        (List.findIdx?_eq_some_iff_findIdx_eq.mp heq).1
      have hold : scenarios2.get ⟨i, hlt⟩ = old := by
        rw [List.getElem?_eq_getElem hlt, Option.some.injEq] at hget
        exact hget
      subst hold
      rfl

/-- Closed witness for `scenario_store_roundtrip`. -/
theorem scenario_store_roundtrip_witness :
    LocalStorageService.getScenario
        (LocalStorageService.saveScenario [] 0 "t0" "n" sampleInputs sampleCalculation []).2
        (LocalStorageService.saveScenario [] 0 "t0" "n" sampleInputs
          sampleCalculation []).1.id =
      some (LocalStorageService.saveScenario [] 0 "t0" "n" sampleInputs
        sampleCalculation []).1 ∧
    (LocalStorageService.updateScenario [sampleScenario] "t1" "scenario_0" "n2" sampleInputs
        sampleCalculation []).1 =
      some { id := sampleScenario.id, name := "n2", inputs := sampleInputs,
             calculation := sampleCalculation, amortization := [],
             createdAt := sampleScenario.createdAt, updatedAt := "t1" } :=
  ⟨(scenario_store_roundtrip [] 0 "t0" "n" sampleInputs sampleCalculation []
      (by simp) [sampleScenario] "t1" "scenario_0" "n2" sampleInputs sampleCalculation []).1,
   (scenario_store_roundtrip [] 0 "t0" "n" sampleInputs sampleCalculation []
      (by simp) [sampleScenario] "t1" "scenario_0" "n2" sampleInputs sampleCalculation []).2
      0 sampleScenario (by decide) (by decide)⟩
